import Mathlib

/-!
Shallow embedding of `src/extra/extra-tablets.py`: a pagination-and-extraction
pipeline over a product-search API with batched PostgreSQL persistence.

Modelling conventions:
* Python strings are `String`; `str.upper()` is modelled by `py_upper`
  (ASCII case mapping) and `str.split(",", 1)` by `py_split_first`.
* A raw JSON product is a record of optional fields (`dict.get` with a
  default becomes `Option.getD`).  `product.get('brand', [...])[0]` raises
  `IndexError` on a present-but-empty list, so extraction returns `Option`.
* The wall clock: the source computes `current_time_str` from
  `datetime.utcnow()`; here the already-formatted timestamp string is a
  parameter of `extract_product_data`.
* The fetch loop interacts with the network through a script: the i-th GET
  of the run receives the i-th `FetchResponse` of the script.  `.exn`
  models `session.get`/`response.json()` raising.  Observable side effects
  (the loop-level `print` calls and `time.sleep(5)`) are recorded as
  `Event`s.
* The connection pool is a counter of checked-out connections plus the
  table's committed row count; `save_to_postgresql` takes a flag saying
  whether the batched INSERT/commit raises.
-/

/-- Model of Python `str.upper()` (ASCII case mapping, as exercised here). -/
def py_upper (s : String) : String :=
  ⟨s.data.map Char.toUpper⟩

/-- Split a character list at the first occurrence of `sep`:
`none` when `sep` does not occur. -/
def split_first_aux (sep : Char) : List Char → Option (List Char × List Char)
  | [] => none
  | c :: cs =>
    if c = sep then some ([], cs)
    else
      match split_first_aux sep cs with
      | none => none
      | some (l, r) => some (c :: l, r)

/-- Model of Python `s.split(sep, 1)`: the part before the first `sep`, and
the remainder when `sep` occurs (`parts[1]`). -/
def py_split_first (s : String) (sep : Char) : String × Option String :=
  match split_first_aux sep s.data with
  | none => (s, none)
  | some (l, r) => (⟨l⟩, some ⟨r⟩)

/-- The `brand_mapping` dictionary of `format_brand` as an association
list, keyed by the uppercased brand (note the misspelt key `"SAMSNG"`,
copied from the source). -/
def brand_mapping_table : List (String × String) :=
  [("TECNO", "Tecno"), ("APPLE", "Apple"), ("NOKIA", "Nokia"),
   ("XIAOMI", "Xiaomi"), ("VIVO", "Vivo"), ("MOTOROLA", "Motorola"),
   ("HUAWEI", "Huawei"), ("NOTHING", "Nothing"), ("REALME", "Realme"),
   ("HONOR", "Honor"), ("SAMSNG", "Samsung"), ("INFINIX", "Infinix")]

/-- Dictionary lookup, `brand_mapping.get(k)` without a default. -/
def brand_mapping (k : String) : Option String :=
  brand_mapping_table.lookup k

/-- `format_brand`: `brand_mapping.get(brand.upper(), brand)`. -/
def format_brand (brand : String) : String :=
  (brand_mapping (py_upper brand)).getD brand

/-- One raw product dictionary from the decoded JSON page.  `none` is an
absent key; for `wasPrice` the outer `Option` is key presence and the inner
one is SQL/JSON null, matching `product.get('wasPrice', new_price)`. -/
structure RawProduct where
  nameEn : Option String := none
  featureEnProcessorCore : Option String := none
  productUrl : Option String := none
  sellingPrice : Option Rat := none
  wasPrice : Option (Option Rat) := none
  inStockFlag : Option Bool := none
  brand : Option (List String) := none
deriving DecidableEq, Repr

/-- The normalized record `extract_product_data` returns. -/
structure Record where
  name : String
  specs : String
  new_price : Option Rat
  old_price : Option Rat
  brand : String
  link : String
  category : String
  datetime : String
  stock : Bool
  store : String
deriving DecidableEq, Repr

/-- `extract_product_data(product)`: `none` models the `IndexError` raised
by `product.get('brand', ['No Brand Available'])[0]` when the brand key is
present with an empty list; every other path builds a full record. -/
def extract_product_data (product : RawProduct) (current_time_str : String) :
    Option Record :=
  let product_name := product.nameEn.getD "No Name Available"
  let product_parts := py_split_first product_name ','
  let name := product_parts.1
  let additional_name := product_parts.2.getD ""
  let processor_core :=
    product.featureEnProcessorCore.getD "No Processor Info Available"
  let specs :=
    if additional_name ≠ "" then additional_name ++ ", " ++ processor_core
    else processor_core
  let product_link := product.productUrl.getD "No URL Available"
  let new_price := product.sellingPrice
  let old_price :=
    match product.wasPrice with
    | none => new_price
    | some w => w
  let stock := product.inStockFlag.getD false
  match product.brand.getD ["No Brand Available"] with
  | [] => none
  | raw_brand :: _ =>
    some { name := name, specs := specs, new_price := new_price,
           old_price := old_price, brand := format_brand raw_brand,
           link := product_link, category := "tablets",
           datetime := current_time_str, stock := stock, store := "extra" }

/-- Observable side effects of the pipeline: the loop-level and persister
`print` calls, and `time.sleep`. -/
inductive Event where
  | connectedLogged
  | connectErrorLogged
  | failedFetchLogged (offset status : Nat)
  | noMoreLogged (offset : Nat)
  | fetchedAllLogged (total : Nat)
  | errorLogged (offset : Nat)
  | slept (seconds : Nat)
  | skipSaveLogged
  | savedLogged (count : Nat)
  | saveErrorLogged
deriving DecidableEq, Repr

/-- What one GET at the current offset yields: `.exn` when `session.get` or
`response.json()` raises, otherwise the status code and (for 200) the
decoded `response.products` list and `response.numberOfProducts`. -/
inductive FetchResponse where
  | exn
  | http (status : Nat) (products : List RawProduct)
      (numberOfProducts : Nat)
deriving DecidableEq, Repr

/-- The loop state of `fetch_products`. -/
structure FetchState where
  start_index : Nat
  all_products : List Record
  stopped : Bool
  events : List Event
deriving DecidableEq, Repr

/-- The state at loop entry. -/
def initState : FetchState :=
  { start_index := 0, all_products := [], stopped := false, events := [] }

/-- `for product_data in products: all_products.append(...)`: appends
extracted records one at a time; the `Bool` is `true` when an item raised
mid-loop (the records appended before it are kept). -/
def append_items (now : String) (acc : List Record) :
    List RawProduct → List Record × Bool
  | [] => (acc, false)
  | p :: rest =>
    match extract_product_data p now with
    | some r => append_items now (acc ++ [r]) rest
    | none => (acc, true)

/-- One iteration of the `while True` body of `fetch_products`, given the
response the GET at the current offset produced. -/
def fetch_step (now : String) (s : FetchState) (r : FetchResponse) :
    FetchState :=
  match r with
  | .exn =>
    { s with events := s.events ++ [.errorLogged s.start_index, .slept 5] }
  | .http status products total_products =>
    if status ≠ 200 then
      { s with stopped := true,
               events := s.events ++ [.failedFetchLogged s.start_index status] }
    else if products = [] then
      { s with stopped := true,
               events := s.events ++ [.noMoreLogged s.start_index] }
    else
      match append_items now s.all_products products with
      | (acc, true) =>
        { s with all_products := acc,
                 events := s.events ++ [.errorLogged s.start_index, .slept 5] }
      | (acc, false) =>
        if total_products ≤ acc.length then
          { s with all_products := acc, stopped := true,
                   events := s.events ++ [.fetchedAllLogged total_products] }
        else
          { s with all_products := acc, start_index := s.start_index + 96 }

/-- Run the loop against a script of responses (the i-th iteration's GET
receives the i-th entry); also counts the iterations (= GETs) executed. -/
def fetch_run (now : String) : FetchState → List FetchResponse →
    FetchState × Nat
  | s, [] => (s, 0)
  | s, r :: rest =>
    if s.stopped then (s, 0)
    else
      let p := fetch_run now (fetch_step now s r) rest
      (p.1, p.2 + 1)

/-- The connection pool plus the target table: how many connections are
checked out, and how many rows are committed. -/
structure PoolState where
  acquired : Nat
  rows : Nat
deriving DecidableEq, Repr

/-- `save_to_postgresql(products)`.  `write_fails` says whether
`execute_batch`/`conn.commit()` raises; as in the source, `putconn` is
executed only on the success path (there is no `finally`), and the
`except` clause only logs. -/
def save_to_postgresql (pool : Option PoolState) (write_fails : Bool)
    (products : List Record) : Option PoolState × List Event :=
  match pool with
  | none => (none, [.skipSaveLogged])
  | some ps =>
    let conn_held : PoolState := { ps with acquired := ps.acquired + 1 }
    if write_fails then
      (some conn_held, [.saveErrorLogged])
    else
      (some { acquired := conn_held.acquired - 1,
              rows := conn_held.rows + products.length },
       [.savedLogged products.length])

/-- Module-level pool initialization: the `try/except psycopg2.OperationalError`
around `SimpleConnectionPool(...)`. -/
def init_pool (db_available : Bool) : Option PoolState × List Event :=
  if db_available then
    (some { acquired := 0, rows := 0 }, [.connectedLogged])
  else
    (none, [.connectErrorLogged])

/-- The outcome of one full run of the script. -/
structure PipelineResult where
  fetch_state : FetchState
  pages : Nat
  pool : Option PoolState
  events : List Event
deriving DecidableEq, Repr

/-- One whole run: pool initialization, `fetch_products()`, and — only when
`connection_pool` is truthy — `save_to_postgresql(all_products)`. -/
def run_pipeline (now : String) (script : List FetchResponse)
    (db_available write_fails : Bool) : PipelineResult :=
  let ip := init_pool db_available
  let fr := fetch_run now initState script
  match ip.1 with
  | some ps =>
    let sv := save_to_postgresql (some ps) write_fails fr.1.all_products
    { fetch_state := fr.1, pages := fr.2, pool := sv.1,
      events := ip.2 ++ fr.1.events ++ sv.2 }
  | none =>
    { fetch_state := fr.1, pages := fr.2, pool := none,
      events := ip.2 ++ fr.1.events }

/-- A raw item with every optional field absent. -/
def emptyRaw : RawProduct := {}

/-- What `extract_product_data` makes of `emptyRaw` at timestamp `"t"`:
every field is the source's sentinel default. -/
def default_record : Record :=
  { name := "No Name Available", specs := "No Processor Info Available",
    new_price := none, old_price := none, brand := "No Brand Available",
    link := "No URL Available", category := "tablets", datetime := "t",
    stock := false, store := "extra" }

/-- A full page of 96 items whose reported total is also 96. -/
def page96 : FetchResponse := .http 200 (List.replicate 96 emptyRaw) 96

/-- The loop state right after processing `page96` from `initState`. -/
def state_after_page96 : FetchState :=
  { start_index := 0, all_products := List.replicate 96 default_record,
    stopped := true, events := [.fetchedAllLogged 96] }

/-- A full page of 96 items whose reported total is 200. -/
def page96_of_200 : FetchResponse := .http 200 (List.replicate 96 emptyRaw) 200

/-- The worked example of the spec: a title with one comma plus a
processor-core attribute. -/
def tabXraw : RawProduct :=
  { nameEn := some "Tab X, 8GB RAM",
    featureEnProcessorCore := some "Octa-core" }

/-- Raw items for the mid-page-exception scenario: three well-formed items
and one whose `brand` key holds an empty list (so `brand[0]` raises). -/
def rawA : RawProduct := { nameEn := some "A" }

def rawB : RawProduct := { nameEn := some "B" }

def rawC : RawProduct := { nameEn := some "C" }

def bad_brand_raw : RawProduct := { brand := some [] }

def recA : Record := { default_record with name := "A" }

def recB : Record := { default_record with name := "B" }

def recC : Record := { default_record with name := "C" }

/-! ## Helper lemmas -/

/-- Once `stopped` is set, the loop consumes nothing further. -/
theorem fetch_run_stopped (now : String) (s : FetchState)
    (h : s.stopped = true) : ∀ script, fetch_run now s script = (s, 0) := by
  intro script
  cases script with
  | nil => rfl
  | cons r rest => simp [fetch_run, h]

/-- A separator that does not occur splits nothing. -/
theorem split_first_aux_eq_none (sep : Char) :
    ∀ l : List Char, sep ∉ l → split_first_aux sep l = none := by
  intro l
  induction l with
  | nil => intro _; rfl
  | cons c cs ih =>
    intro h
    have hc : ¬ c = sep := fun e => h (e ▸ List.mem_cons_self c cs)
    simp [split_first_aux, hc, ih fun hm => h (List.mem_cons_of_mem c hm)]

/-- Every value the correction table can return is itself corrected to
itself (also `"Samsung"`, whose table key is the misspelt `"SAMSNG"`). -/
theorem brand_table_values_fixed :
    ∀ p ∈ brand_mapping_table, format_brand p.2 = p.2 := by decide

/-- A successful table lookup yields one of the table's values. -/
theorem brand_mapping_value_mem (k v : String)
    (h : brand_mapping k = some v) :
    ∃ p ∈ brand_mapping_table, p.2 = v := by
  unfold brand_mapping at h
  rcases List.lookup_eq_some_iff.mp h with ⟨l₁, l₂, he, -⟩
  exact ⟨(k, v), by rw [he]; exact List.mem_append_right _ (List.mem_cons_self _ _), rfl⟩

/-! ## Claim theorems -/

/-- C1: the batched write at the failing input.  On a failing
INSERT/commit (`write_fails = true`) the except clause only logs and the
function returns normally — but the connection acquired for the batch is
still checked out (`acquired = 1`): `putconn` sits on the success path
only, so the connection leaks, contradicting the release-in-all-cases
claim.  On success the connection is released and the batch committed. -/
theorem save_failure_leaks_connection :
    save_to_postgresql (some { acquired := 0, rows := 0 }) true
        [default_record] =
      (some { acquired := 1, rows := 0 }, [Event.saveErrorLogged]) ∧
    save_to_postgresql (some { acquired := 0, rows := 0 }) false
        [default_record] =
      (some { acquired := 0, rows := 1 }, [Event.savedLogged 1]) := by
  decide

/-- C2 counterexample: with a single full page (96 items, reported total
96) the loop executes exactly one iteration — the count-match break fires
inside the first iteration, not on a second one. -/
theorem count_match_not_second_iteration :
    (fetch_run "t" initState [page96, page96]).2 = 1 ∧
    (fetch_run "t" initState [page96, page96]).2 ≠ 2 := by
  decide

/-- C2 (amended): when the server reports `numberOfProducts = 96` and the
first page holds 96 items, pagination stops during the FIRST iteration via
the count-match condition — one page fetched, 96 records accumulated, the
count-match message logged — whatever the server would have answered
later. -/
theorem count_match_stops_in_first_iteration (rest : List FetchResponse) :
    fetch_run "t" initState (page96 :: rest) = (state_after_page96, 1) ∧
    state_after_page96.stopped = true ∧
    state_after_page96.all_products.length = 96 ∧
    Event.fetchedAllLogged 96 ∈ state_after_page96.events := by
  have h1 : fetch_step "t"
      { start_index := 0, all_products := [], stopped := false,
        events := [] } page96 = state_after_page96 := by decide
  have h2 : ∀ l, fetch_run "t" state_after_page96 l = (state_after_page96, 0) :=
    fetch_run_stopped _ _ rfl
  refine ⟨?_, rfl, by decide, by decide⟩
  simp [fetch_run, initState, h1, h2]

/-- C3 counterexample: on title `"Tab X, 8GB RAM"` with processor
`"Octa-core"`, the name is `"Tab X"` but the specs string is NOT
`"8GB RAM, Octa-core"`: `split(',', 1)` keeps the character after the
comma, so the remainder starts with a space. -/
theorem specs_not_claimed_string :
    (extract_product_data tabXraw "t").map Record.name = some "Tab X" ∧
    (extract_product_data tabXraw "t").map Record.specs ≠
      some "8GB RAM, Octa-core" := by
  decide

/-- C3 (amended): on the worked example the extraction yields
`name = "Tab X"` and `specs = " 8GB RAM, Octa-core"` (the space after the
comma of the title is preserved); and for every item whose title contains
no comma, the specs field equals the processor-core string alone. -/
theorem name_specs_split :
    (extract_product_data tabXraw "t").map Record.name = some "Tab X" ∧
    (extract_product_data tabXraw "t").map Record.specs =
      some " 8GB RAM, Octa-core" ∧
    ∀ (p : RawProduct) (now title proc : String) (r : Record),
      p.nameEn = some title → ',' ∉ title.data →
      p.featureEnProcessorCore = some proc →
      extract_product_data p now = some r → r.specs = proc := by
  refine ⟨by decide, by decide, ?_⟩
  intro p now title proc r h1 h2 h3 h4
  have hsplit : py_split_first title ',' = (title, none) := by
    unfold py_split_first
    rw [split_first_aux_eq_none ',' title.data h2]
  unfold extract_product_data at h4
  simp only [h1, h3, hsplit, Option.getD_some, Option.getD_none,
    ne_eq, not_true_eq_false, if_false, ite_false] at h4
  rcases hb : p.brand.getD ["No Brand Available"] with _ | ⟨rb, rest⟩
  · rw [hb] at h4
    exact absurd h4 (by simp)
  · rw [hb] at h4
    injection h4 with h5
    subst h5
    rfl

/-- C4: the brand correction is case-insensitive where the table applies
(the three spec examples, and in general any two spellings with the same
uppercasing that hit the table agree), and it is idempotent on every input
string. -/
theorem format_brand_case_insensitive_idempotent :
    format_brand "tecno" = "Tecno" ∧ format_brand "TECNO" = "Tecno" ∧
    format_brand "Tecno" = "Tecno" ∧
    (∀ b1 b2 : String, py_upper b1 = py_upper b2 →
      (brand_mapping (py_upper b1)).isSome = true →
      format_brand b1 = format_brand b2) ∧
    (∀ b : String, format_brand (format_brand b) = format_brand b) := by
  refine ⟨by decide, by decide, by decide, ?_, ?_⟩
  · intro b1 b2 h hs
    unfold format_brand
    rcases Option.isSome_iff_exists.mp hs with ⟨v, hv⟩
    rw [hv, ← h, hv]
    rfl
  · intro b
    unfold format_brand
    cases h : brand_mapping (py_upper b) with
    | none => simp [h]
    | some v =>
      rcases brand_mapping_value_mem _ _ h with ⟨pair, hmem, hv⟩
      have hfix : format_brand pair.2 = pair.2 :=
        brand_table_values_fixed pair hmem
      rw [hv] at hfix
      unfold format_brand at hfix
      simp only [h, Option.getD_some]
      exact hfix

/-- C5: for every raw item whose brand key is not a present-but-empty
list (the one shape on which `brand[0]` raises), extraction succeeds and
every missing optional field becomes its sentinel: placeholder brand
passed unchanged through the correction table, `"No URL Available"`,
`stock = false`, and `old_price = new_price` when `wasPrice` is absent;
the constant fields are always populated.  The item with every optional
field absent evaluates to the all-sentinel record. -/
theorem extraction_total_with_sentinels :
    (∀ (p : RawProduct) (now : String), p.brand ≠ some [] →
      ∃ r : Record, extract_product_data p now = some r ∧
        (p.brand = none → r.brand = "No Brand Available") ∧
        (p.productUrl = none → r.link = "No URL Available") ∧
        (p.inStockFlag = none → r.stock = false) ∧
        (p.wasPrice = none → r.old_price = r.new_price) ∧
        r.category = "tablets" ∧ r.store = "extra" ∧ r.datetime = now) ∧
    extract_product_data {} "t" = some default_record := by
  constructor
  · intro p now hb
    unfold extract_product_data
    rcases hbr : p.brand with _ | ⟨_ | ⟨b, bs⟩⟩
    · refine ⟨_, rfl, ?_, ?_, ?_, ?_, rfl, rfl, rfl⟩
      · intro _
        show format_brand "No Brand Available" = "No Brand Available"
        decide
      · intro h; simp [h]
      · intro h; simp [h]
      · intro h; simp [h]
    · exact absurd hbr hb
    · refine ⟨_, rfl, ?_, ?_, ?_, ?_, rfl, rfl, rfl⟩
      · intro h; exact Option.noConfusion h
      · intro h; simp [h]
      · intro h; simp [h]
      · intro h; simp [h]
  · decide

/-- C6: an exception during a page fetch leaves the offset, the
accumulator and the stop flag untouched and only logs the error at the
current offset and sleeps 5 seconds, so the same offset is retried; and
this holds for any number of consecutive failures (no cutoff, no backoff
growth — every delay is the same fixed 5 seconds). -/
theorem exception_retries_same_offset :
    (∀ (now : String) (s : FetchState),
      fetch_step now s .exn =
        { s with events :=
            s.events ++ [.errorLogged s.start_index, .slept 5] }) ∧
    (∀ (now : String) (s : FetchState) (n : Nat),
      ((fun st => fetch_step now st FetchResponse.exn)^[n] s).start_index =
          s.start_index ∧
      ((fun st => fetch_step now st FetchResponse.exn)^[n] s).all_products =
          s.all_products ∧
      ((fun st => fetch_step now st FetchResponse.exn)^[n] s).stopped =
          s.stopped) := by
  refine ⟨fun now s => rfl, ?_⟩
  intro now s n
  induction n with
  | zero => exact ⟨rfl, rfl, rfl⟩
  | succ k ih =>
    rw [Function.iterate_succ_apply']
    exact ⟨ih.1, ih.2.1, ih.2.2⟩

/-- C7: a non-200 status stops pagination at once — the state is marked
stopped with only the failure logged, the offset is not retried — and the
run then proceeds to the persistence step: in the concrete run the second
scripted response is never consumed (1 page), and the persister runs
(acquiring and releasing a connection, committing the empty batch). -/
theorem http_error_stops_run_then_persists :
    (∀ (now : String) (s : FetchState) (status : Nat)
        (ps : List RawProduct) (total : Nat),
      status ≠ 200 →
      fetch_step now s (.http status ps total) =
        { s with stopped := true,
                 events :=
                   s.events ++ [.failedFetchLogged s.start_index status] }) ∧
    run_pipeline "t" [.http 503 [] 0, page96] true false =
      { fetch_state := { start_index := 0, all_products := [],
                         stopped := true,
                         events := [.failedFetchLogged 0 503] },
        pages := 1, pool := some { acquired := 0, rows := 0 },
        events := [.connectedLogged, .failedFetchLogged 0 503,
                   .savedLogged 0] } := by
  constructor
  · intro now s status ps total h
    simp [fetch_step, h]
  · decide

/-- C8: a decoded page with an empty product list terminates pagination
(for any state and any reported total), and in the concrete run with
reported total 200 the loop stops after 2 pages with 96 records
accumulated, never consuming the third scripted response. -/
theorem empty_page_terminates_pagination :
    (∀ (now : String) (s : FetchState) (total : Nat),
      fetch_step now s (.http 200 [] total) =
        { s with stopped := true,
                 events := s.events ++ [.noMoreLogged s.start_index] }) ∧
    fetch_run "t" initState [page96_of_200, .http 200 [] 200, page96] =
      ({ start_index := 96,
         all_products := List.replicate 96 default_record,
         stopped := true, events := [.noMoreLogged 96] }, 2) := by
  constructor
  · intro now s total
    simp [fetch_step]
  · decide

/-- C9: when pool initialization fails at startup, the run is degraded but
complete: the fetch/extract loop produces exactly the state it produces
with a healthy pool, the pool stays unavailable, and the only event beyond
the extraction's own is the startup connection-error log — no save is
attempted (and nothing raises: the run is a total function). -/
theorem degraded_mode_skips_persistence (now : String)
    (script : List FetchResponse) (wf : Bool) :
    (run_pipeline now script false wf).fetch_state =
      (run_pipeline now script true wf).fetch_state ∧
    (run_pipeline now script false wf).fetch_state =
      (fetch_run now initState script).1 ∧
    (run_pipeline now script false wf).pool = none ∧
    (run_pipeline now script false wf).events =
      Event.connectErrorLogged :: (fetch_run now initState script).1.events := by
  exact ⟨rfl, rfl, rfl, rfl⟩

/-- C10: a page whose third item raises (present-but-empty brand list)
after two items were appended: the two records stay in the accumulator,
the same offset is refetched, and the successful second pass appends them
again — the list handed to the persister holds `recA, recB` twice, i.e.
it is not duplicate-free. -/
theorem midpage_exception_keeps_appended_and_duplicates :
    fetch_run "t" initState
        [.http 200 [rawA, rawB, bad_brand_raw] 3,
         .http 200 [rawA, rawB, rawC] 3] =
      ({ start_index := 0,
         all_products := [recA, recB, recA, recB, recC],
         stopped := true,
         events := [.errorLogged 0, .slept 5, .fetchedAllLogged 3] }, 2) ∧
    ¬ ([recA, recB, recA, recB, recC] : List Record).Nodup := by
  decide
